import Mathlib

/-!
Shallow embedding of the MMT010 grid-automation core
(`src/mmt010_automation.py`, classes `MMT010Automation` and `TestData` of
`src/data_manager.py`, column mapping of `src/config.py`).

Modelling conventions:

* Python exceptions of class `Exception` (everything an `except Exception`
  clause catches) are the single error type `PyErr`; fallible code lives in
  `Except PyErr`.  A `try: body / except Exception: return fallback` block is
  `pyCatch body fallback`.
* The Playwright page is abstracted as a `Driver`: a snapshot oracle giving
  the outcome of each browser primitive the automation code awaits.  A field
  of type `Except PyErr _` models an `await` that may raise; a plain function
  models a query whose failure the source already converts locally.
* Playwright semantics baked into the model, per the Playwright
  documentation: `Locator.nth k` treats `k = -1` as the last element and an
  index outside the collection yields an empty locator (`count() = 0`);
  `Locator.filter(has_text=s)` matches rows whose text contains `s` as a
  case-insensitive substring, and `.first` takes the first such row.
* Python float comparisons `success_rate >= 0.8` are modelled over `ℚ`.
  The record dictionary always has 5 entries, so the rates are k/5 with
  k ≤ 5; for those values the double rounding of `k/5` and of the literal
  `0.8` agree with exact rational comparison.
-/

namespace MMT010

/-- Model of a Python `Exception` value (the class caught by
`except Exception` blocks throughout `mmt010_automation.py`). -/
inductive PyErr where
  | exn : String → PyErr
deriving DecidableEq

/-- Extract the value of a fallible computation, substituting `fallback`
when it raised. -/
def exceptD {α : Type} (m : Except PyErr α) (fallback : α) : α :=
  match m with
  | .ok v => v
  | .error _ => fallback

/-- A `try: body / except Exception: return fallback` block: the result is
always returned normally, never re-raised. -/
def pyCatch {α : Type} (m : Except PyErr α) (fallback : α) : Except PyErr α :=
  .ok (exceptD m fallback)

/-- `TestData` (`data_manager.py` lines 24-35): the five business fields of
one record.  The source names the fields 料號, 站位, 版本, 描述, MFGID群組;
Lean identifiers cannot carry those characters, so the spec's English names
stand for them and the original names remain as the string keys produced by
`to_dict`. -/
structure TestData where
  part_number : String
  station : String
  version : String
  description : String
  manufacturing_group : String
deriving DecidableEq

/-- `TestData.to_dict` (`data_manager.py` lines 62-70): the record as an
ordered field-name/value dictionary.  Python dicts preserve insertion order,
so the model is the ordered association list. -/
def TestData.to_dict (t : TestData) : List (String × String) :=
  [("料號", t.part_number), ("站位", t.station), ("版本", t.version),
   ("描述", t.description), ("MFGID群組", t.manufacturing_group)]

/-- A column mapping (`config.py` lines 117-123): field name to 1-based
grid column index, as an association list (a Python dict). -/
abbrev ColumnMapping := List (String × Nat)

/-- Dict lookup `mapping[column_name]`, with `none` for `not in mapping`. -/
def lookupCol : ColumnMapping → String → Option Nat
  | [], _ => none
  | (k, v) :: rest, f => if k = f then some v else lookupCol rest f

/-- The default `column_mapping` of `WebConfig` (`config.py` lines 117-123). -/
def default_column_mapping : ColumnMapping :=
  [("料號", 1), ("站位", 2), ("版本", 3), ("描述", 4), ("MFGID群組", 5)]

/-- Snapshot oracle for the Playwright page: the outcome of each browser
primitive the automation code awaits during one operation.

* `wait_grid`    — `grid_container.wait_for(state='visible')` in
  `wait_for_grid_ready`; `.error` models a timeout or driver fault.
* `row_texts`    — the rendered text of each `data_rows` entry, in DOM
  order; `data_rows.count()` is its length.
* `header_texts` — the header-cell texts read by `get_grid_info`.
* `add_button` / `delete_button` — whether any selector of the
  add/delete-button priority list matches (`.error`: the count call raised).
* `confirm_button` — whether a confirmation button appears after delete.
* `click_row` / `click_button` — row and button `click()` outcomes.
* `cell_present`  — per column name: `cell_locator.count() > 0`.
* `cell_dblclick` — the `dblclick()` on a cell.
* `editor_visible` — per column name: whether the inline text editor became
  visible within its 5000 ms wait (a timeout there is caught locally).
* `editor_fill` / `editor_enter` — the `fill(value)` and `press('Enter')`
  calls on the editor.
* `body_click`   — the recovery click on the page body.
* `cell_count` / `cell_text` — per row index: `td` count and cell texts
  read by `view_test_data` (their per-cell failures are already converted
  to `""` by inner handlers, so they are plain functions). -/
structure Driver where
  wait_grid : Except PyErr Unit
  row_texts : Except PyErr (List String)
  header_texts : Except PyErr (List String)
  add_button : Except PyErr Bool
  delete_button : Except PyErr Bool
  confirm_button : Except PyErr Bool
  click_row : Except PyErr Unit
  click_button : Except PyErr Unit
  cell_present : String → Bool
  cell_dblclick : String → Except PyErr Unit
  editor_visible : String → Bool
  editor_fill : String → String → Except PyErr Unit
  editor_enter : String → Except PyErr Unit
  body_click : Except PyErr Unit
  cell_count : Nat → Nat
  cell_text : Nat → Nat → String

/-- Whether `needle` is a prefix of the second list (character lists). -/
def startsWithChars : List Char → List Char → Bool
  | [], _ => true
  | _ :: _, [] => false
  | a :: as, b :: bs => a == b && startsWithChars as bs

/-- Whether `needle` occurs as a contiguous sublist of the second list. -/
def containsChars (needle : List Char) : List Char → Bool
  | [] => needle.isEmpty
  | c :: rest => startsWithChars needle (c :: rest) || containsChars needle rest

/-- The characters of `s`, each lowercased. -/
def lowerChars (s : String) : List Char :=
  s.toList.map Char.toLower

/-- Playwright `filter(has_text=needle)` on one row: per the Playwright
documentation, a string `has_text` argument "matches elements containing
specified text somewhere inside", the matching being case-insensitive
substring search. -/
def hasText (rowText needle : String) : Bool :=
  containsChars (lowerChars needle) (lowerChars rowText)

/-- Index of the first element satisfying `p`
(models `.filter(...).first` plus its `count() > 0` check). -/
def firstMatchIdx (p : String → Bool) : List String → Option Nat
  | [] => none
  | r :: rest => if p r then some 0 else (firstMatchIdx p rest).map (fun k => k + 1)

/-- Playwright `data_rows.nth(k)` followed by `count() > 0`: `k = -1`
selects the last of a non-empty collection, `0 ≤ k < len` selects position
`k`, and any other index yields no element (an out-of-range index gives an
empty locator; an invalid negative index raises, which the caller's
`except` turns into the same no-row outcome). -/
def nthIndex (len : Nat) (k : Int) : Option Nat :=
  if k = -1 then (if 0 < len then some (len - 1) else none)
  else if 0 ≤ k ∧ k < (len : Int) then some k.toNat
  else none

/-- `wait_for_grid_ready` (`mmt010_automation.py` lines 148-167): wait for
the grid container to be visible; any raise is caught and reported as
`false`. -/
def wait_for_grid_ready (d : Driver) : Except PyErr Bool :=
  pyCatch (do
    let _ ← d.wait_grid
    pure true) false

/-- `find_grid_row` (`mmt010_automation.py` lines 205-239): resolve a row
identifier (int ordinal or text match) to a row, `none` when absent.  The
result `some k` stands for the locator of the 0-based row `k`. -/
def find_grid_row (d : Driver) (row_identifier : Int ⊕ String) :
    Except PyErr (Option Nat) :=
  pyCatch (do
    let ready ← wait_for_grid_ready d
    if !ready then
      return none
    let rows ← d.row_texts
    match row_identifier with
    | Sum.inl i => return nthIndex rows.length (i - 1)
    | Sum.inr s => return firstMatchIdx (fun r => hasText r s) rows) none

/-- `fill_single_cell` (`mmt010_automation.py` lines 241-285): drive one
cell through double-click → editor-wait → fill → Enter.  Unknown columns
are rejected up front; the editor-wait timeout triggers the recovery click
on the page body; every raise is caught and reported as `false`. -/
def fill_single_cell (m : ColumnMapping) (d : Driver)
    (column_name value : String) : Bool :=
  exceptD (do
    match lookupCol m column_name with
    | none => return false
    | some _col_index =>
      if !d.cell_present column_name then
        return false
      let _ ← d.cell_dblclick column_name
      if !d.editor_visible column_name then
        let _ ← d.body_click
        return false
      let _ ← d.editor_fill column_name value
      let _ ← d.editor_enter column_name
      return true) false

/-- The cell-edit attempts the field loops of `add_new_test_data`
(lines 336-340) and `edit_test_data` (lines 374-381) issue: the
`fill_single_cell` calls, made exactly for the dictionary entries whose
field name is in the column mapping, in dictionary order. -/
def fieldAttempts (m : ColumnMapping) : List (String × String) → List (String × String)
  | [] => []
  | (f, v) :: rest =>
      (if (lookupCol m f).isSome then [(f, v)] else []) ++ fieldAttempts m rest

/-- The `success_count` accumulated by those field loops: the number of
mapped fields whose `fill_single_cell` call returned `True`. -/
def fieldSuccessCount (m : ColumnMapping) (d : Driver) :
    List (String × String) → Nat
  | [] => 0
  | (f, v) :: rest =>
      (if (lookupCol m f).isSome then
        (if fill_single_cell m d f v then 1 else 0)
       else 0) + fieldSuccessCount m d rest

/-- The `success_rate` computed at `mmt010_automation.py` lines 342 and 384:
`success_count / len(data_dict)` — the denominator is the full record
dictionary, not the attempted subset.  (`len(data_dict)` is always 5, so
the Python float division never divides by zero; over `ℚ` the same
expression is total.) -/
def success_rate (m : ColumnMapping) (d : Driver)
    (data_dict : List (String × String)) : ℚ :=
  (fieldSuccessCount m d data_dict : ℚ) / (data_dict.length : ℚ)

/-- `add_new_test_data` (`mmt010_automation.py` lines 287-353): grid-ready
check, best-effort Add button, last-row selection, the field loop, then the
`success_rate >= 0.8` decision.  Every raise is caught and reported as
`False`. -/
def add_new_test_data (m : ColumnMapping) (d : Driver)
    (test_data : TestData) : Except PyErr Bool :=
  pyCatch (do
    let ready ← wait_for_grid_ready d
    if !ready then
      return false
    let ab ← d.add_button
    if ab then
      let _ ← d.click_button
      pure ()
    let data_dict := test_data.to_dict
    let rows ← d.row_texts
    if 0 < rows.length then
      let _ ← d.click_row
      pure ()
    else
      return false
    return decide ((4 : ℚ) / 5 ≤ success_rate m d data_dict)) false

/-- `edit_test_data` (`mmt010_automation.py` lines 355-398): resolve the
target row, select it, run the field loop, then the looser decision
`success_rate >= 0.8` or `success_count > 0`. -/
def edit_test_data (m : ColumnMapping) (d : Driver)
    (row_identifier : Int ⊕ String) (test_data : TestData) : Except PyErr Bool :=
  pyCatch (do
    let row? ← find_grid_row d row_identifier
    match row? with
    | none => return false
    | some _row =>
      let _ ← d.click_row
      let data_dict := test_data.to_dict
      if (4 : ℚ) / 5 ≤ success_rate m d data_dict then
        return true
      else if 0 < fieldSuccessCount m d data_dict then
        return true
      else
        return false) false

/-- `delete_test_data` (`mmt010_automation.py` lines 400-450): resolve the
row, select it, activate the delete affordance if present, acknowledge an
optional confirmation prompt. -/
def delete_test_data (d : Driver) (row_identifier : Int ⊕ String) :
    Except PyErr Bool :=
  pyCatch (do
    let row? ← find_grid_row d row_identifier
    match row? with
    | none => return false
    | some _row =>
      let _ ← d.click_row
      let db ← d.delete_button
      if db then
        let _ ← d.click_button
        let cb ← d.confirm_button
        if cb then
          let _ ← d.click_button
          pure ()
        return true
      else
        return false) false

/-- Result dictionary of `get_grid_info` (`mmt010_automation.py`
lines 169-203).  The source's error dictionaries omit some keys; an absent
`grid_ready` reads as `False` (`dict.get(_, False)`) and an absent `error`
as `none`. -/
structure GridInfo where
  row_count : Nat
  headers : List String
  grid_ready : Bool
  error : Option String
deriving DecidableEq

/-- `get_grid_info` (`mmt010_automation.py` lines 169-203): row count plus
up to 6 header texts; failures yield a not-ready result. -/
def get_grid_info (d : Driver) : Except PyErr GridInfo :=
  pyCatch (do
    let ready ← wait_for_grid_ready d
    if !ready then
      return ⟨0, [], false, some "表格未準備就緒"⟩
    let rows ← d.row_texts
    let hs ← d.header_texts
    return ⟨rows.length, hs.take 6, true, none⟩)
    ⟨0, [], false, some "exception"⟩

/-- Result dictionary of `view_test_data` (`mmt010_automation.py`
lines 452-512); `preview_count` is 0 where the source's dictionary omits
the key. -/
structure ViewResult where
  success : Bool
  row_count : Nat
  headers : List String
  preview_count : Nat
  data : List (List String)
  error : Option String
deriving DecidableEq

/-- `view_test_data` (`mmt010_automation.py` lines 452-512): a read-only
preview of at most the first 10 rows and 6 columns. -/
def view_test_data (d : Driver) : Except PyErr ViewResult :=
  pyCatch (do
    let gi ← get_grid_info d
    if !gi.grid_ready then
      return ⟨false, 0, [], 0, [], some "表格未準備就緒"⟩
    if gi.row_count = 0 then
      return ⟨true, 0, gi.headers, 0, [], none⟩
    let preview := (List.range (min gi.row_count 10)).map (fun i =>
      (List.range (min (d.cell_count i) 6)).map (fun j => d.cell_text i j))
    return ⟨true, gi.row_count, gi.headers, preview.length, preview, none⟩)
    ⟨false, 0, [], 0, [], some "exception"⟩

/-- One entry of the `details` list built by `batch_add_test_data`. -/
structure BatchItemResult where
  index : Nat
  ok : Bool
  data : List (String × String)
deriving DecidableEq

/-- The aggregate dictionary returned by `batch_add_test_data`
(`mmt010_automation.py` lines 539-546; the exception branch at lines
553-559 omits `success_rate` and `details`, modelled as `0` and `[]`). -/
structure BatchResult where
  success : Bool
  total : Nat
  success_count : Nat
  failed_count : Nat
  success_rate : ℚ
  details : List BatchItemResult
  error : Option String
deriving DecidableEq

/-- One observable step of a batch run: completion of the `create` for the
1-based item `i` with its outcome, or an `asyncio.sleep` of the given
number of seconds. -/
inductive BatchEvent where
  | item : Nat → Bool → BatchEvent
  | sleep : ℚ → BatchEvent
deriving DecidableEq

/-- The loop of `batch_add_test_data` (lines 523-537), itemised from the
1-based index `i`: per item the `add_new_test_data` outcome and its
`details` entry, accumulating success/failure counts over the whole list
(no early abort). -/
def batch_loop (m : ColumnMapping) (ds : Nat → Driver) :
    Nat → List TestData → Except PyErr (Nat × Nat × List BatchItemResult)
  | _, [] => pure (0, 0, [])
  | i, t :: rest => do
      let ok ← add_new_test_data m (ds i) t
      let (s, f, tl) ← batch_loop m ds (i + 1) rest
      if ok then
        pure (s + 1, f, ⟨i, true, t.to_dict⟩ :: tl)
      else
        pure (s, f + 1, ⟨i, false, t.to_dict⟩ :: tl)

/-- The awaited-event trace of that same loop: item `i` completes, then —
for every item but the last (`if i < len(test_data_list)`) — a
`asyncio.sleep(1)` separates it from the next item's start. -/
def batch_trace (m : ColumnMapping) (ds : Nat → Driver) (n : Nat) :
    Nat → List TestData → List BatchEvent
  | _, [] => []
  | i, t :: rest =>
      BatchEvent.item i (exceptD (add_new_test_data m (ds i) t) false) ::
        ((if i < n then [BatchEvent.sleep 1] else []) ++ batch_trace m ds n (i + 1) rest)

/-- The per-item outcomes of the batch, in list order from 1-based index `i`. -/
def batch_outcomes (m : ColumnMapping) (ds : Nat → Driver) :
    Nat → List TestData → List Bool
  | _, [] => []
  | i, t :: rest =>
      exceptD (add_new_test_data m (ds i) t) false :: batch_outcomes m ds (i + 1) rest

/-- `batch_add_test_data` (`mmt010_automation.py` lines 514-559): run
`add_new_test_data` per item sequentially and aggregate.  `ds i` is the
page snapshot the `i`-th create observes (the grid state evolves between
items).  The batch `success_rate` is `success_count / len(list)` with `0`
for the empty list (Python truthiness). -/
def batch_add_test_data (m : ColumnMapping) (ds : Nat → Driver)
    (test_data_list : List TestData) : Except PyErr BatchResult :=
  pyCatch (do
    let (s, f, details) ← batch_loop m ds 1 test_data_list
    return ⟨decide (0 < s), test_data_list.length, s, f,
      (if test_data_list.length = 0 then 0 else (s : ℚ) / (test_data_list.length : ℚ)),
      details, none⟩)
    ⟨false, test_data_list.length, 0, test_data_list.length, 0, [], some "exception"⟩

end MMT010

namespace MMT010

/-! Concrete fixtures used by witnesses and counterexamples. -/

/-- A page snapshot on the happy path: grid visible, the given rows
rendered, no Add/Delete buttons, every cell reachable, and the inline
editor appearing exactly for the columns `visible` selects (an edit of any
other column times out and fails). -/
def testDriver (rows : List String) (visible : String → Bool) : Driver :=
  { wait_grid := .ok (), row_texts := .ok rows, header_texts := .ok [],
    add_button := .ok false, delete_button := .ok false, confirm_button := .ok false,
    click_row := .ok (), click_button := .ok (),
    cell_present := fun _ => true, cell_dblclick := fun _ => .ok (),
    editor_visible := visible, editor_fill := fun _ _ => .ok (),
    editor_enter := fun _ => .ok (), body_click := .ok (),
    cell_count := fun _ => 0, cell_text := fun _ _ => "" }

/-- A record with all five business fields populated. -/
def sampleData : TestData :=
  ⟨"ABC123", "FT", "V1.0.0", "Sample product", "DEFAULT"⟩

/-- The five canonical field names, in the fixed order `to_dict` emits
them (part_number, station, version, description, manufacturing_group). -/
def canonical_field_names : List String :=
  ["料號", "站位", "版本", "描述", "MFGID群組"]

/-- A column mapping containing only the part-number column. -/
def partOnlyMapping : ColumnMapping := [("料號", 1)]

/-- The default column mapping with the `MFGID群組` entry removed. -/
def fourFieldMapping : ColumnMapping :=
  [("料號", 1), ("站位", 2), ("版本", 3), ("描述", 4)]

/-! Evaluation lemmas: each runs one operation's `Except` pipeline under
explicit outcomes of the awaited driver primitives. -/

/-- When the grid-visibility wait succeeds, `wait_for_grid_ready` reports
`true`. -/
theorem wait_ready_ok {d : Driver} (hw : d.wait_grid = .ok ()) :
    wait_for_grid_ready d = .ok true := by
  simp [wait_for_grid_ready, pyCatch, exceptD, hw]

/-- On a ready grid with at least one row and non-raising clicks,
`add_new_test_data` returns exactly the thresholded success-rate decision. -/
theorem add_eval (m : ColumnMapping) (t : TestData) {d : Driver}
    {rs : List String} {b : Bool}
    (hw : d.wait_grid = .ok ()) (hab : d.add_button = .ok b)
    (hcb : d.click_button = .ok ()) (hr : d.row_texts = .ok rs)
    (hne : rs ≠ []) (hcr : d.click_row = .ok ()) :
    add_new_test_data m d t =
      .ok (decide ((4 : ℚ) / 5 ≤ success_rate m d t.to_dict)) := by
  have hlen : 0 < rs.length := List.length_pos.mpr hne
  unfold add_new_test_data
  rw [wait_ready_ok hw, hab, hr]
  cases b <;>
    simp [pyCatch, exceptD, hcb, hcr, hlen, Bind.bind, Except.bind, Pure.pure, Except.pure]

/-- On a ready grid, `find_grid_row` resolves an ordinal through
`nthIndex` and a text reference through `firstMatchIdx`. -/
theorem find_eval {d : Driver} {rs : List String} (ident : Int ⊕ String)
    (hw : d.wait_grid = .ok ()) (hr : d.row_texts = .ok rs) :
    find_grid_row d ident =
      .ok (match ident with
        | Sum.inl i => nthIndex rs.length (i - 1)
        | Sum.inr s => firstMatchIdx (fun r => hasText r s) rs) := by
  unfold find_grid_row
  rw [wait_ready_ok hw, hr]
  cases ident <;>
    simp [pyCatch, exceptD, Bind.bind, Except.bind, Pure.pure, Except.pure]

/-- When the target row resolves and its selection click succeeds,
`edit_test_data` returns the disjunction of the rate threshold and the
any-field-succeeded test. -/
theorem edit_eval (m : ColumnMapping) (t : TestData) {d : Driver}
    {ident : Int ⊕ String} {k : Nat}
    (hf : find_grid_row d ident = .ok (some k)) (hcr : d.click_row = .ok ()) :
    edit_test_data m d ident t =
      .ok (decide ((4 : ℚ) / 5 ≤ success_rate m d t.to_dict)
            || decide (0 < fieldSuccessCount m d t.to_dict)) := by
  unfold edit_test_data
  rw [hf]
  by_cases h1 : (4 : ℚ) / 5 ≤ success_rate m d t.to_dict <;>
    by_cases h2 : 0 < fieldSuccessCount m d t.to_dict <;>
      simp [pyCatch, exceptD, hcr, h1, h2, Bind.bind, Except.bind, Pure.pure, Except.pure]

/-- The field loop's success count is the number of attempted fields whose
cell edit succeeded. -/
theorem fieldSuccessCount_eq_filter (m : ColumnMapping) (d : Driver) :
    ∀ dd : List (String × String),
      fieldSuccessCount m d dd =
        ((fieldAttempts m dd).filter (fun p => fill_single_cell m d p.1 p.2)).length
  | [] => rfl
  | (f, v) :: rest => by
      rcases hs : (lookupCol m f).isSome with _ | _ <;>
        rcases hc : fill_single_cell m d f v with _ | _ <;>
          simp [fieldSuccessCount, fieldAttempts, hs, hc,
            fieldSuccessCount_eq_filter m d rest, Nat.add_comm]

/-- With no attempted field, the field loop confirms no edit. -/
theorem fieldSuccessCount_zero_of_no_attempts (m : ColumnMapping) (d : Driver) :
    ∀ dd : List (String × String), (fieldAttempts m dd).length = 0 →
      fieldSuccessCount m d dd = 0 := by
  intro dd h
  rw [fieldSuccessCount_eq_filter]
  have : fieldAttempts m dd = [] := List.length_eq_zero.mp h
  simp [this]

/-- `firstMatchIdx` returns the index of the first matching element: the
index is in range, its element matches, and every earlier one does not. -/
theorem firstMatchIdx_spec (p : String → Bool) :
    ∀ (l : List String) (k : Nat), firstMatchIdx p l = some k →
      k < l.length ∧ p (l.getD k "") = true ∧ ∀ j, j < k → p (l.getD j "") = false
  | [], k => by simp [firstMatchIdx]
  | r :: rest, k => by
      rcases hp : p r with _ | _
      · simp only [firstMatchIdx, hp, Bool.false_eq_true, if_false, Option.map_eq_some']
        rintro ⟨k0, hk0, rfl⟩
        obtain ⟨h1, h2, h3⟩ := firstMatchIdx_spec p rest k0 hk0
        refine ⟨by simpa using h1, by simpa using h2, ?_⟩
        intro j hj
        cases j with
        | zero => simpa using hp
        | succ j0 => exact h3 j0 (by omega)
      · simp only [firstMatchIdx, hp, if_true, Option.some.injEq]
        rintro rfl
        exact ⟨by simp, by simpa using hp, by omega⟩

/-- `add_new_test_data` is its own catch: it always returns normally. -/
theorem add_always_ok (m : ColumnMapping) (d : Driver) (t : TestData) :
    add_new_test_data m d t = .ok (exceptD (add_new_test_data m d t) false) := rfl

/-- The batch loop always returns normally, with the success and failure
tallies of the per-item outcomes. -/
theorem batch_loop_eval (m : ColumnMapping) (ds : Nat → Driver) :
    ∀ (i : Nat) (ts : List TestData), ∃ det,
      batch_loop m ds i ts =
        .ok ((batch_outcomes m ds i ts).count true,
             (batch_outcomes m ds i ts).count false, det)
  | i, [] => ⟨[], by simp [batch_loop, batch_outcomes, Pure.pure, Except.pure]⟩
  | i, t :: rest => by
      obtain ⟨det, hdet⟩ := batch_loop_eval m ds (i + 1) rest
      have hadd : add_new_test_data m (ds i) t =
          .ok (exceptD (add_new_test_data m (ds i) t) false) := rfl
      rcases hb : exceptD (add_new_test_data m (ds i) t) false with _ | _ <;> rw [hb] at hadd
      · exact ⟨⟨i, false, t.to_dict⟩ :: det, by
          simp [batch_loop, batch_outcomes, hadd, hdet, hb, Bind.bind, Except.bind,
            Pure.pure, Except.pure, List.count_cons, exceptD]⟩
      · exact ⟨⟨i, true, t.to_dict⟩ :: det, by
          simp [batch_loop, batch_outcomes, hadd, hdet, hb, Bind.bind, Except.bind,
            Pure.pure, Except.pure, List.count_cons, exceptD]⟩

/-- There is one batch outcome per batch item. -/
theorem batch_outcomes_length (m : ColumnMapping) (ds : Nat → Driver) :
    ∀ (i : Nat) (ts : List TestData), (batch_outcomes m ds i ts).length = ts.length
  | _, [] => rfl
  | i, t :: rest => by simp [batch_outcomes, batch_outcomes_length m ds (i + 1) rest]

/-- Boolean tallies are exhaustive. -/
theorem count_true_add_count_false (l : List Bool) :
    l.count true + l.count false = l.length := by
  induction l with
  | nil => rfl
  | cons b rest ih => cases b <;> simp [List.count_cons] <;> omega

/-- The batch trace is the item completions in 1-based list order with one
1-second sleep interspersed between consecutive completions. -/
theorem batch_trace_canonical (m : ColumnMapping) (ds : Nat → Driver) (n : Nat) :
    ∀ (i : Nat) (ts : List TestData), i + ts.length = n + 1 →
      batch_trace m ds n i ts =
        List.intersperse (BatchEvent.sleep 1)
          ((List.enumFrom i (batch_outcomes m ds i ts)).map
            (fun p => BatchEvent.item p.1 p.2))
  | i, [], _ => by simp [batch_trace, batch_outcomes]
  | i, t :: rest, h => by
      cases rest with
      | nil =>
          have hi : ¬ i < n := by simp at h; omega
          simp [batch_trace, batch_outcomes, hi, List.enumFrom, List.intersperse_singleton]
      | cons t2 rest2 =>
          have hi : i < n := by simp at h; omega
          have ih := batch_trace_canonical m ds n (i + 1) (t2 :: rest2) (by simp at h ⊢; omega)
          rw [batch_trace, if_pos hi, ih]
          simp [batch_outcomes, List.enumFrom, List.intersperse_cons_cons]

/-- An element of an interspersed list is an element of the original list
or the separator. -/
theorem mem_intersperse {α : Type} (sep : α) :
    ∀ (l : List α) (a : α), a ∈ l.intersperse sep → a ∈ l ∨ a = sep
  | [], a => by simp
  | [b], a => by
      intro h
      rw [List.intersperse_singleton] at h
      exact Or.inl h
  | b :: c :: tl, a => by
      rw [List.intersperse_cons_cons]
      intro h
      rcases List.mem_cons.mp h with h1 | h1
      · exact Or.inl (by simp [h1])
      · rcases List.mem_cons.mp h1 with h2 | h2
        · exact Or.inr h2
        · rcases mem_intersperse sep (c :: tl) a h2 with h3 | h3
          · exact Or.inl (List.mem_cons_of_mem _ h3)
          · exact Or.inr h3

end MMT010

namespace MMT010

/-- C1 counterexample: with a column mapping holding only 料號 and a page
on which every attempted cell edit succeeds, the create field loop attempts
N = 1 field and confirms K = 1, yet the computed `success_rate` is
K/5 = 1/5 rather than K/N = 1 — the unmapped fields stay in the
denominator — and the create even reports failure although every attempted
edit succeeded. -/
theorem success_rate_unmapped_counterexample :
    (fieldAttempts partOnlyMapping sampleData.to_dict).length = 1
    ∧ fieldSuccessCount partOnlyMapping (testDriver ["r1"] (fun _ => true))
        sampleData.to_dict = 1
    ∧ success_rate partOnlyMapping (testDriver ["r1"] (fun _ => true))
        sampleData.to_dict = 1 / 5
    ∧ ((1 : ℚ) / 5 ≠ 1 / 1)
    ∧ add_new_test_data partOnlyMapping (testDriver ["r1"] (fun _ => true))
        sampleData = .ok false := by
  have hc : fieldSuccessCount partOnlyMapping (testDriver ["r1"] (fun _ => true))
      sampleData.to_dict = 1 := rfl
  have hl : sampleData.to_dict.length = 5 := rfl
  have hrate : success_rate partOnlyMapping (testDriver ["r1"] (fun _ => true))
      sampleData.to_dict = 1 / 5 := by
    rw [success_rate, hc, hl]; norm_num
  refine ⟨rfl, hc, hrate, by norm_num, ?_⟩
  rw [add_eval partOnlyMapping sampleData rfl rfl rfl rfl (by simp) rfl, hrate]
  norm_num

/-- C1 (amended): for every create or edit operation the reported
`success_rate` equals K divided by the total number of fields of the
record dictionary — always 5 — with fields absent from the ColumnMapping
excluded from the numerator only, not from the denominator.  The
denominator is the constant 5, so no division error can occur, and when
N = 0 fields are attempted both create and edit report success = false. -/
theorem success_rate_denominator_amended (m : ColumnMapping) (d : Driver)
    (t : TestData) (ident : Int ⊕ String) (rs : List String) (b : Bool) (k : Nat)
    (hw : d.wait_grid = .ok ()) (hab : d.add_button = .ok b)
    (hcb : d.click_button = .ok ()) (hr : d.row_texts = .ok rs) (hne : rs ≠ [])
    (hcr : d.click_row = .ok ()) (hf : find_grid_row d ident = .ok (some k)) :
    success_rate m d t.to_dict = (fieldSuccessCount m d t.to_dict : ℚ) / 5
    ∧ ((fieldAttempts m t.to_dict).length = 0 →
        add_new_test_data m d t = .ok false ∧ edit_test_data m d ident t = .ok false) := by
  have hl : t.to_dict.length = 5 := rfl
  constructor
  · rw [success_rate, hl]; norm_num
  · intro hN
    have hc : fieldSuccessCount m d t.to_dict = 0 :=
      fieldSuccessCount_zero_of_no_attempts m d _ hN
    have hrate : success_rate m d t.to_dict = 0 := by
      rw [success_rate, hc, hl]; norm_num
    constructor
    · rw [add_eval m t hw hab hcb hr hne hcr, hrate]; norm_num
    · rw [edit_eval m t hf hcr, hrate, hc]; norm_num

/-- C1 witness: at the empty column mapping (N = 0 attempts) on a live
one-row grid, the reported rate is K/5 and both create and edit report
failure without raising. -/
theorem success_rate_denominator_amended_witness :
    success_rate [] (testDriver ["r1"] (fun _ => true)) sampleData.to_dict =
      (fieldSuccessCount [] (testDriver ["r1"] (fun _ => true)) sampleData.to_dict : ℚ) / 5
    ∧ add_new_test_data [] (testDriver ["r1"] (fun _ => true)) sampleData = .ok false
    ∧ edit_test_data [] (testDriver ["r1"] (fun _ => true)) (Sum.inl 1) sampleData = .ok false := by
  obtain ⟨h1, h2⟩ := success_rate_denominator_amended [] (testDriver ["r1"] (fun _ => true))
    sampleData (Sum.inl 1) ["r1"] false 0 rfl rfl rfl rfl (by simp) rfl rfl
  obtain ⟨h3, h4⟩ := h2 rfl
  exact ⟨h1, h3, h4⟩

/-- C2: on a ready grid with at least one row and non-raising clicks,
`create(record)` reports overall success if and only if its success_rate
is at least 0.8: a rate of exactly 0.8 yields success = true and any rate
strictly below 0.8 yields success = false. -/
theorem create_success_iff_rate (m : ColumnMapping) (d : Driver) (t : TestData)
    (rs : List String) (b : Bool)
    (hw : d.wait_grid = .ok ()) (hab : d.add_button = .ok b)
    (hcb : d.click_button = .ok ()) (hr : d.row_texts = .ok rs) (hne : rs ≠ [])
    (hcr : d.click_row = .ok ()) :
    (add_new_test_data m d t = .ok true ↔ (4 : ℚ) / 5 ≤ success_rate m d t.to_dict)
    ∧ (success_rate m d t.to_dict < 4 / 5 → add_new_test_data m d t = .ok false) := by
  have he := add_eval m t hw hab hcb hr hne hcr
  refine ⟨by rw [he]; simp, fun h => by rw [he]; simp [not_le.mpr h]⟩

/-- C2 witness: at the boundary — 4 of 5 fields confirmed, success_rate
exactly 4/5 — create reports success = true. -/
theorem create_success_iff_rate_witness :
    add_new_test_data default_column_mapping
      (testDriver ["r1"] (fun f => !(f == "MFGID群組"))) sampleData = .ok true
    ∧ success_rate default_column_mapping
        (testDriver ["r1"] (fun f => !(f == "MFGID群組"))) sampleData.to_dict = 4 / 5 := by
  have hc : fieldSuccessCount default_column_mapping
      (testDriver ["r1"] (fun f => !(f == "MFGID群組"))) sampleData.to_dict = 4 := rfl
  have hl : sampleData.to_dict.length = 5 := rfl
  have hrate : success_rate default_column_mapping
      (testDriver ["r1"] (fun f => !(f == "MFGID群組"))) sampleData.to_dict = 4 / 5 := by
    rw [success_rate, hc, hl]; norm_num
  have h := (create_success_iff_rate default_column_mapping
    (testDriver ["r1"] (fun f => !(f == "MFGID群組"))) sampleData ["r1"] false
    rfl rfl rfl rfl (by simp) rfl).1
  exact ⟨h.mpr (by rw [hrate]), hrate⟩

/-- C3: when the target row resolves and its selection click succeeds,
`edit(row_ref, record)` reports overall success if and only if at least one
field edit was confirmed or the success_rate is at least 0.8. -/
theorem edit_success_iff_any_or_rate (m : ColumnMapping) (d : Driver)
    (ident : Int ⊕ String) (t : TestData) (k : Nat)
    (hf : find_grid_row d ident = .ok (some k)) (hcr : d.click_row = .ok ()) :
    edit_test_data m d ident t = .ok true ↔
      (0 < fieldSuccessCount m d t.to_dict ∨ (4 : ℚ) / 5 ≤ success_rate m d t.to_dict) := by
  rw [edit_eval m t hf hcr]
  simp [or_comm]

/-- C3 witness: with exactly 1 confirmed field of 5 attempted
(success_rate 1/5 = 0.2), edit reports success = true while create under
the same per-field outcomes reports success = false. -/
theorem edit_success_iff_any_or_rate_witness :
    edit_test_data default_column_mapping (testDriver ["r1"] (fun f => f == "料號"))
      (Sum.inl 1) sampleData = .ok true
    ∧ success_rate default_column_mapping (testDriver ["r1"] (fun f => f == "料號"))
        sampleData.to_dict = 1 / 5
    ∧ add_new_test_data default_column_mapping (testDriver ["r1"] (fun f => f == "料號"))
        sampleData = .ok false := by
  have hc : fieldSuccessCount default_column_mapping
      (testDriver ["r1"] (fun f => f == "料號")) sampleData.to_dict = 1 := rfl
  have hl : sampleData.to_dict.length = 5 := rfl
  have hrate : success_rate default_column_mapping
      (testDriver ["r1"] (fun f => f == "料號")) sampleData.to_dict = 1 / 5 := by
    rw [success_rate, hc, hl]; norm_num
  refine ⟨(edit_success_iff_any_or_rate default_column_mapping
      (testDriver ["r1"] (fun f => f == "料號")) (Sum.inl 1) sampleData 0 rfl rfl).mpr
      (Or.inl (by rw [hc]; norm_num)), hrate, ?_⟩
  rw [add_eval default_column_mapping sampleData rfl rfl rfl rfl (by simp) rfl, hrate]
  norm_num

/-- C4: when all five record fields are mapped in the ColumnMapping, the
create field loop issues exactly 5 cell-edit attempts, in the fixed
canonical order part_number (料號), station (站位), version (版本),
description (描述), manufacturing_group (MFGID群組); the loop's success
count tallies exactly those attempts. -/
theorem create_attempts_canonical_order (m : ColumnMapping) (d : Driver) (t : TestData)
    (h : ∀ f ∈ canonical_field_names, (lookupCol m f).isSome = true) :
    fieldAttempts m t.to_dict =
      [("料號", t.part_number), ("站位", t.station), ("版本", t.version),
       ("描述", t.description), ("MFGID群組", t.manufacturing_group)]
    ∧ (fieldAttempts m t.to_dict).length = 5
    ∧ fieldSuccessCount m d t.to_dict =
        ((fieldAttempts m t.to_dict).filter (fun p => fill_single_cell m d p.1 p.2)).length := by
  have h1 := h "料號" (by simp [canonical_field_names])
  have h2 := h "站位" (by simp [canonical_field_names])
  have h3 := h "版本" (by simp [canonical_field_names])
  have h4 := h "描述" (by simp [canonical_field_names])
  have h5 := h "MFGID群組" (by simp [canonical_field_names])
  have hA : fieldAttempts m t.to_dict =
      [("料號", t.part_number), ("站位", t.station), ("版本", t.version),
       ("描述", t.description), ("MFGID群組", t.manufacturing_group)] := by
    simp [fieldAttempts, TestData.to_dict, h1, h2, h3, h4, h5]
  exact ⟨hA, by rw [hA]; rfl, fieldSuccessCount_eq_filter m d _⟩

/-- C4 witness: with the default column mapping, the sample record's five
fields are attempted in canonical order. -/
theorem create_attempts_canonical_order_witness :
    fieldAttempts default_column_mapping sampleData.to_dict =
      [("料號", "ABC123"), ("站位", "FT"), ("版本", "V1.0.0"),
       ("描述", "Sample product"), ("MFGID群組", "DEFAULT")]
    ∧ (fieldAttempts default_column_mapping sampleData.to_dict).length = 5 := by
  obtain ⟨hA, hL, _⟩ := create_attempts_canonical_order default_column_mapping
    (testDriver ["r1"] (fun _ => true)) sampleData (by decide)
  exact ⟨hA, hL⟩

/-- C5: when the ColumnMapping lacks manufacturing_group (MFGID群組),
create attempts at most 4 cell edits — the unmapped field is silently
skipped, not an error — and when the other four fields are mapped and every
attempted edit succeeds, create still reports overall success (rate
4/5 = 0.8 meets the threshold), so the missing mapping alone causes no
failure. -/
theorem create_skips_unmapped_mfg_group (m : ColumnMapping) (d : Driver) (t : TestData)
    (rs : List String) (b : Bool)
    (hw : d.wait_grid = .ok ()) (hab : d.add_button = .ok b)
    (hcb : d.click_button = .ok ()) (hr : d.row_texts = .ok rs) (hne : rs ≠ [])
    (hcr : d.click_row = .ok ())
    (hmiss : lookupCol m "MFGID群組" = none) :
    (fieldAttempts m t.to_dict).length ≤ 4
    ∧ ((∀ f ∈ (["料號", "站位", "版本", "描述"] : List String),
          (lookupCol m f).isSome = true) →
       (∀ p ∈ fieldAttempts m t.to_dict, fill_single_cell m d p.1 p.2 = true) →
       add_new_test_data m d t = .ok true) := by
  constructor
  · simp only [fieldAttempts, TestData.to_dict, hmiss, Option.isSome_none,
      Bool.false_eq_true, if_false, List.append_nil, List.length_append]
    split_ifs <;> simp
  · intro hmap hall
    have h1 := hmap "料號" (by simp)
    have h2 := hmap "站位" (by simp)
    have h3 := hmap "版本" (by simp)
    have h4 := hmap "描述" (by simp)
    have hA : fieldAttempts m t.to_dict =
        [("料號", t.part_number), ("站位", t.station), ("版本", t.version),
         ("描述", t.description)] := by
      simp [fieldAttempts, TestData.to_dict, h1, h2, h3, h4, hmiss]
    have hfilter : (fieldAttempts m t.to_dict).filter
        (fun p => fill_single_cell m d p.1 p.2) = fieldAttempts m t.to_dict :=
      List.filter_eq_self.mpr hall
    have hcount : fieldSuccessCount m d t.to_dict = 4 := by
      rw [fieldSuccessCount_eq_filter, hfilter, hA]; rfl
    have hl : t.to_dict.length = 5 := rfl
    have hrate : success_rate m d t.to_dict = 4 / 5 := by
      rw [success_rate, hcount, hl]; norm_num
    rw [add_eval m t hw hab hcb hr hne hcr, hrate]
    norm_num

/-- C5 witness: with the four-field mapping (MFGID群組 absent) on an
all-green page, only 4 edits are attempted and create reports success. -/
theorem create_skips_unmapped_mfg_group_witness :
    (fieldAttempts fourFieldMapping sampleData.to_dict).length ≤ 4
    ∧ add_new_test_data fourFieldMapping (testDriver ["r1"] (fun _ => true))
        sampleData = .ok true := by
  obtain ⟨hL, hS⟩ := create_skips_unmapped_mfg_group fourFieldMapping
    (testDriver ["r1"] (fun _ => true)) sampleData ["r1"] false
    rfl rfl rfl rfl (by simp) rfl rfl
  exact ⟨hL, hS (by decide) (by decide)⟩

/-- C6: `batch_create` processes the items strictly in list order — its
event trace is the item completions for 1-based indices 1..n in order,
with a non-zero 1-second sleep interspersed between consecutive
completions — never aborts early (every item has a completion event), and
returns a result with total = list length, success_count = number of items
whose create succeeded, failed_count = total - success_count, and
success = true iff success_count > 0. -/
theorem batch_create_sequential_accounting (m : ColumnMapping) (ds : Nat → Driver)
    (ts : List TestData) :
    ∃ r : BatchResult, batch_add_test_data m ds ts = .ok r
      ∧ r.total = ts.length
      ∧ r.success_count = (batch_outcomes m ds 1 ts).count true
      ∧ r.failed_count = r.total - r.success_count
      ∧ (r.success = true ↔ 0 < r.success_count)
      ∧ batch_trace m ds ts.length 1 ts =
          List.intersperse (BatchEvent.sleep 1)
            ((List.enumFrom 1 (batch_outcomes m ds 1 ts)).map
              (fun p => BatchEvent.item p.1 p.2))
      ∧ (∀ q : ℚ, BatchEvent.sleep q ∈ batch_trace m ds ts.length 1 ts → q = 1 ∧ q ≠ 0) := by
  obtain ⟨det, hloop⟩ := batch_loop_eval m ds 1 ts
  have hcl : (batch_outcomes m ds 1 ts).count true + (batch_outcomes m ds 1 ts).count false
      = ts.length := by rw [count_true_add_count_false, batch_outcomes_length]
  have htr := batch_trace_canonical m ds ts.length 1 ts (by omega)
  have hb : batch_add_test_data m ds ts =
      .ok ⟨decide (0 < (batch_outcomes m ds 1 ts).count true), ts.length,
        (batch_outcomes m ds 1 ts).count true, (batch_outcomes m ds 1 ts).count false,
        (if ts.length = 0 then 0
         else ((batch_outcomes m ds 1 ts).count true : ℚ) / (ts.length : ℚ)),
        det, none⟩ := by
    simp [batch_add_test_data, pyCatch, exceptD, hloop, Bind.bind, Except.bind,
      Pure.pure, Except.pure]
  refine ⟨_, hb, rfl, rfl, ?_, by simp, htr, ?_⟩
  · show (batch_outcomes m ds 1 ts).count false = ts.length - (batch_outcomes m ds 1 ts).count true
    omega
  · intro q hq
    rw [htr] at hq
    rcases mem_intersperse _ _ _ hq with h | h
    · simp at h
    · injection h with h1
      exact ⟨h1, by rw [h1]; norm_num⟩

/-- C7: resolving an ordinal RowReference larger than the number of
rendered rows returns the NotFound value (`none`) normally — an
`Except.ok`, not a raised out-of-range fault. -/
theorem ordinal_beyond_rows_not_found (d : Driver) (rs : List String) (n : Int)
    (hw : d.wait_grid = .ok ()) (hr : d.row_texts = .ok rs)
    (hgt : (rs.length : Int) < n) :
    find_grid_row d (Sum.inl n) = .ok none := by
  rw [find_eval (Sum.inl n) hw hr]
  show Except.ok (nthIndex rs.length (n - 1)) = Except.ok none
  unfold nthIndex
  rw [if_neg (by omega : ¬ (n - 1 = -1)),
    if_neg (by omega : ¬ (0 ≤ n - 1 ∧ n - 1 < (rs.length : Int)))]

/-- C7 witness: ordinal 3 against a 2-row grid resolves to NotFound. -/
theorem ordinal_beyond_rows_not_found_witness :
    find_grid_row (testDriver ["row a", "row b"] (fun _ => true)) (Sum.inl 3) = .ok none :=
  ordinal_beyond_rows_not_found (testDriver ["row a", "row b"] (fun _ => true))
    ["row a", "row b"] 3 rfl rfl (by norm_num)

/-- C8 counterexample: the row text "ABC" does not contain "abc" as a
case-sensitive substring, yet text-match resolution for "abc" returns that
row (Playwright `has_text` matches case-insensitively), contradicting the
claim that such a row is not matched. -/
theorem text_match_case_counterexample :
    find_grid_row (testDriver ["ABC"] (fun _ => true)) (Sum.inr "abc") = .ok (some 0)
    ∧ containsChars ("abc").toList ("ABC").toList = false :=
  ⟨rfl, rfl⟩

/-- C8 (amended): for every text-match RowReference s, row resolution
returns the first row (in rendered order) whose text contains s as a
case-insensitive substring — Playwright's documented `has_text` semantics —
and with multiple matching rows the first one is returned; rows matching
only up to letter case are matched too. -/
theorem text_match_first_row_amended (d : Driver) (rs : List String) (s : String)
    (hw : d.wait_grid = .ok ()) (hr : d.row_texts = .ok rs) :
    find_grid_row d (Sum.inr s) = .ok (firstMatchIdx (fun r => hasText r s) rs)
    ∧ ∀ k, firstMatchIdx (fun r => hasText r s) rs = some k →
        k < rs.length ∧ hasText (rs.getD k "") s = true
        ∧ ∀ j, j < k → hasText (rs.getD j "") s = false :=
  ⟨by rw [find_eval (Sum.inr s) hw hr], fun k hk => firstMatchIdx_spec _ rs k hk⟩

/-- C8 witness: among rows "xx", "yAb", "zAB" the query "ab" matches the
second and third case-insensitively; resolution returns the first of them. -/
theorem text_match_first_row_amended_witness :
    find_grid_row (testDriver ["xx", "yAb", "zAB"] (fun _ => true)) (Sum.inr "ab")
      = .ok (some 1)
    ∧ hasText "yAb" "ab" = true ∧ hasText "zAB" "ab" = true
    ∧ hasText "xx" "ab" = false := by
  have h := (text_match_first_row_amended (testDriver ["xx", "yAb", "zAB"] (fun _ => true))
    ["xx", "yAb", "zAB"] "ab" rfl rfl).1
  exact ⟨by rw [h]; rfl, rfl, rfl, rfl⟩

/-- C9: for every input and every behaviour of the underlying driver —
including primitives that raise — each orchestrator operation (create,
edit, delete, view, batch create) returns a structured result value
normally: the result is always an `Except.ok`, never a propagated
exception. -/
theorem orchestrator_never_raises (m : ColumnMapping) (d : Driver) (ds : Nat → Driver)
    (t : TestData) (ident : Int ⊕ String) (ts : List TestData) :
    (∃ b, add_new_test_data m d t = .ok b)
    ∧ (∃ b, edit_test_data m d ident t = .ok b)
    ∧ (∃ b, delete_test_data d ident = .ok b)
    ∧ (∃ v, view_test_data d = .ok v)
    ∧ (∃ r, batch_add_test_data m ds ts = .ok r) :=
  ⟨⟨_, rfl⟩, ⟨_, rfl⟩, ⟨_, rfl⟩, ⟨_, rfl⟩, ⟨_, rfl⟩⟩

/-- C10: on a grid with at least one rendered row, resolving the ordinal 0
returns the last data row — the 0-based index 0 - 1 = -1 selects the final
element of the row collection — instead of NotFound, although the
interface documents ordinals as 1-based. -/
theorem ordinal_zero_selects_last_row (d : Driver) (rs : List String)
    (hw : d.wait_grid = .ok ()) (hr : d.row_texts = .ok rs) (hne : rs ≠ []) :
    find_grid_row d (Sum.inl 0) = .ok (some (rs.length - 1)) := by
  rw [find_eval (Sum.inl 0) hw hr]
  have h0 : (0 : Int) - 1 = -1 := by norm_num
  simp [nthIndex, h0, List.length_pos.mpr hne]

/-- C10 witness: ordinal 0 against a 2-row grid resolves to the last row
(index 1), not NotFound. -/
theorem ordinal_zero_selects_last_row_witness :
    find_grid_row (testDriver ["row a", "row b"] (fun _ => true)) (Sum.inl 0)
      = .ok (some 1) :=
  ordinal_zero_selects_last_row (testDriver ["row a", "row b"] (fun _ => true))
    ["row a", "row b"] rfl rfl (by simp)

end MMT010
